import Mathlib

/-!
Shallow embedding of src/userspace-binary/disk_led_monitor.c.

Strings are modelled as lists of byte values (`List Nat`), the file
/proc/diskstats as an optional list of lines (`none` when the open fails),
and the machine type `unsigned long` as `Nat` reduced modulo `2 ^ 64`
(LP64, the platform of the program).  LED side effects are modelled as
explicit event traces; the outcome of each `fopen` of the brightness
endpoint is an explicit boolean input.
-/

namespace DiskLedMonitor

/-- Modulus of the C type `unsigned long` on LP64 platforms. -/
def ULONG_MOD : Nat := 2 ^ 64

/-- One step of the loop body of `hash_string` (disk_led_monitor.c line 36):
`hash = ((hash << 5) + hash) + c`, in `unsigned long` arithmetic. -/
def hash_step (hash c : Nat) : Nat := ((hash <<< 5) + hash + c) % ULONG_MOD

/-- The `while ((c = *str++))` loop of `hash_string` (lines 35-37), folded
over the byte content of the string (a C string holds no zero byte, so the
list is exactly the content before the terminator). -/
def hash_string_from (hash : Nat) : List Nat → Nat
  | [] => hash
  | c :: rest => hash_string_from (hash_step hash c) rest

/-- C translation of `hash_string` (disk_led_monitor.c lines 31-40):
DJB2 with seed 5381, written with the shift form of the source. -/
def hash_string (str : List Nat) : Nat := hash_string_from 5381 str

/-- Reference definition taken from the spec words (section 4.2): a rolling
multiplicative hash, seed 5381, accumulator updated per byte as
`accumulator*33 + byte`.  Written independently of `hash_string` so that
claim C2 compares the source against the spec. -/
def djb2_from (acc : Nat) : List Nat → Nat
  | [] => acc
  | c :: rest => djb2_from ((acc * 33 + c) % ULONG_MOD) rest

/-- Spec-side DJB2 of a whole string. -/
def djb2 (str : List Nat) : Nat := djb2_from 5381 str

/-- The change decision of the monitor loop (disk_led_monitor.c line 216):
`current_hash != last_hash && current_hash != 0`.  The spec names this
decision `has_changed(previous, current)`. -/
def has_changed (previous current : Nat) : Bool :=
  current != previous && current != 0

/-- Matching of a key at the head of a string, the anchor step of the C
library function `strstr` used on line 58. -/
def startsWith : List Nat → List Nat → Bool
  | [], _ => true
  | _ :: _, [] => false
  | a :: ka, b :: hb => a == b && startsWith ka hb

/-- Substring containment as computed by `strstr(buffer, target_disk)`
(line 58): the key occurs at some position of the buffer. -/
def hasSubstr (key : List Nat) : List Nat → Bool
  | [] => startsWith key []
  | b :: t => startsWith key (b :: t) || hasSubstr key t

/-- The `while (fgets(...))` scan of `get_diskstats_hash`
(disk_led_monitor.c lines 52-63), returning the pair of the locals
`hash` and `found`: hash of the first line containing the key, with
`found = true`; `(0, false)` after scanning every line without a match. -/
def scanLines (key : List Nat) : List (List Nat) → Nat × Bool
  | [] => (0, false)
  | buffer :: rest =>
      if hasSubstr key buffer then (hash_string buffer, true)
      else scanLines key rest

/-- C translation of `get_diskstats_hash` (lines 43-72).  The argument is
the current content of /proc/diskstats as a list of lines, or `none` when
the `fopen` fails; the function is pure, so every invocation reads the
whole snapshot passed to it and keeps no state between calls. -/
def get_diskstats_hash (file : Option (List (List Nat))) (key : List Nat) : Nat :=
  match file with
  | none => 0
  | some lines => (scanLines key lines).1

/-- Observable LED effect: one attempted write of a brightness value to the
control endpoint (recording whether the `fopen` of the endpoint succeeded),
or the 50ms hold of `usleep(LED_BLINK_DURATION)`. -/
inductive LedEvent where
  | attempt (brightness : Nat) (success : Bool)
  | hold
deriving DecidableEq, Repr

/-- C translation of `set_led_brightness` (disk_led_monitor.c lines 75-91):
the boolean input is the outcome of the `fopen` of the brightness endpoint;
the function returns `-1` when it fails and `0` when the value was written,
together with the attempted-write event. -/
def set_led_brightness (endpointOpens : Bool) (brightness : Nat) : Int × LedEvent :=
  ((if endpointOpens then 0 else -1), LedEvent.attempt brightness endpointOpens)

/-- C translation of `blink_led` (lines 94-98): write 1, hold, write 0.
The function is `void` in the source, so its first component — the value
returned to the caller — is `Unit`; the second component is the trace of
effects, sequenced exactly as the source: activating write, hold,
deactivating write. -/
def blink_led (ok1 ok2 : Bool) : Unit × List LedEvent :=
  ((), [(set_led_brightness ok1 1).2, LedEvent.hold, (set_led_brightness ok2 0).2])

/-- The loop-local state of `main` (lines 209-211): `last_hash` and
`activity_count`. -/
structure LoopState where
  last_hash : Nat
  activity_count : Nat
deriving DecidableEq, Repr

/-- One iteration of the `while (running)` body (lines 213-229), given the
hash read this tick and the two endpoint-open outcomes of the blink.
Returns the updated state and the LED events of the tick. -/
def tick (s : LoopState) (current_hash : Nat) (ok1 ok2 : Bool) :
    LoopState × List LedEvent :=
  if current_hash != s.last_hash && current_hash != 0 then
    ({ last_hash := current_hash, activity_count := s.activity_count + 1 },
     (blink_led ok1 ok2).2)
  else (s, [])

/-- External inputs of one tick: the hash read from the snapshot of
/proc/diskstats, the two endpoint-open outcomes, and whether a termination
signal is delivered during this tick (the handler only sets the flag, so
the body still completes; the flag is observed at the next loop-head
check). -/
structure TickInput where
  current_hash : Nat
  ok1 : Bool
  ok2 : Bool
  sigDuring : Bool
deriving DecidableEq, Repr

/-- The `while (running)` loop (lines 213-229) over a finite input trace.
Returns the final state, the concatenated LED events, and `some 0` — the
exit status of `main` (line 234) — when a signal ended the loop; `none`
when the inputs ran out with the loop still running. -/
def runLoop (s : LoopState) : List TickInput → LoopState × List LedEvent × Option Nat
  | [] => (s, [], none)
  | i :: rest =>
      let p := tick s i.current_hash i.ok1 i.ok2
      if i.sigDuring then (p.1, p.2, some 0)
      else
        let r := runLoop p.1 rest
        (r.1, p.2 ++ r.2.1, r.2.2)

/-- Reference loop that processes every input fully, ignoring signals; used
to state that a signal during tick k makes the loop behave exactly like a
full run of ticks 0..k followed by a clean exit. -/
def fullTicks (s : LoopState) : List TickInput → LoopState × List LedEvent
  | [] => (s, [])
  | i :: rest =>
      let p := tick s i.current_hash i.ok1 i.ok2
      let r := fullTicks p.1 rest
      (r.1, p.2 ++ r.2)

/-- Checks that a LED event trace is a sequence of complete pulses: each
activating write (brightness 1) is followed by the hold and then by the
deactivating write (brightness 0). -/
def completeBlinks : List LedEvent → Bool
  | [] => true
  | LedEvent.attempt b1 _ :: LedEvent.hold :: LedEvent.attempt b2 _ :: rest =>
      b1 == 1 && b2 == 0 && completeBlinks rest
  | _ => false

/-- C translation of `signal_handler` (disk_led_monitor.c lines 23-28):
returns the new value of the `running` flag and the lines printed inside
the signal-handling context. -/
def signal_handler (debug_mode : Bool) (sig : Nat) : Bool × List String :=
  (false,
   if debug_mode then ["Received signal " ++ toString sig ++ ", shutting down..."]
   else [])

/-- Helper lemma: the shift-form accumulator step of the source equals the
multiplicative step of the spec. -/
theorem hash_step_eq_djb2_step (h c : Nat) :
    hash_step h c = (h * 33 + c) % ULONG_MOD := by
  unfold hash_step
  congr 1
  rw [Nat.shiftLeft_eq]
  ring

/-- Helper lemma: the two folds agree from every accumulator. -/
theorem hash_string_from_eq_djb2_from (s : List Nat) :
    ∀ h : Nat, hash_string_from h s = djb2_from h s := by
  induction s with
  | nil => intro h; rfl
  | cons c rest ih =>
      intro h
      show hash_string_from (hash_step h c) rest = djb2_from ((h * 33 + c) % ULONG_MOD) rest
      rw [ih, hash_step_eq_djb2_step]

/-- C1: the change decision made on each tick is true iff
`current != previous` and `current != 0`; a zero current fingerprint never
triggers, and equal fingerprints never trigger. -/
theorem C1_has_changed_iff :
    ∀ previous current : Nat,
      (has_changed previous current = true ↔ (current ≠ previous ∧ current ≠ 0)) ∧
      has_changed previous 0 = false ∧
      has_changed current current = false ∧
      (∀ (n : Nat) (ok1 ok2 : Bool),
        (tick ⟨previous, n⟩ current ok1 ok2).2 ≠ [] ↔
          has_changed previous current = true) := by
  intro previous current
  refine ⟨?_, ?_, ?_, ?_⟩
  · simp [has_changed]
  · simp [has_changed]
  · simp [has_changed]
  · intro n ok1 ok2
    by_cases h : (current != previous && current != 0) = true
    · simp [tick, has_changed, h, blink_led]
    · simp [tick, has_changed, h]

/-- Concrete instantiation of C1. -/
theorem C1_has_changed_iff_witness :
    has_changed 5 7 = true ∧ has_changed 5 0 = false ∧ has_changed 7 7 = false ∧
    (tick ⟨5, 0⟩ 7 true true).2 ≠ [] :=
  ⟨(C1_has_changed_iff 5 7).1.mpr (by decide),
   (C1_has_changed_iff 5 7).2.1,
   (C1_has_changed_iff 7 7).2.2.1,
   ((C1_has_changed_iff 5 7).2.2.2 0 true true).mpr (by decide)⟩

/-- C2: the fingerprint function is a deterministic pure function equal to
the DJB2 reference definition (seed 5381, accumulator times 33 plus byte),
and the fingerprint of the empty string is 5381, which is not the zero
sentinel. -/
theorem C2_hash_is_djb2 :
    (∀ s : List Nat, hash_string s = djb2 s) ∧
    (∀ s t : List Nat, s = t → hash_string s = hash_string t) ∧
    hash_string [] = 5381 ∧
    hash_string [] ≠ 0 := by
  refine ⟨?_, ?_, rfl, by decide⟩
  · intro s
    exact hash_string_from_eq_djb2_from s 5381
  · intro s t hst
    rw [hst]

/-- Concrete instantiation of C2. -/
theorem C2_hash_is_djb2_witness :
    hash_string [104, 105] = djb2 [104, 105] ∧
    hash_string [104] = hash_string [104] ∧
    hash_string [] = 5381 :=
  ⟨C2_hash_is_djb2.1 [104, 105],
   C2_hash_is_djb2.2.1 [104] [104] rfl,
   C2_hash_is_djb2.2.2.1⟩

/-- C3: on a tick whose fingerprint is non-zero and differs from the
baseline, exactly one pulse is emitted (the three-event blink trace), the
activity counter increases by one, and the baseline becomes the new
fingerprint — so an immediately repeated reading emits nothing; on a tick
whose fingerprint equals the baseline, no pulse is emitted and the state
is unchanged. -/
theorem C3_change_tick :
    ∀ (s : LoopState) (cur : Nat) (ok1 ok2 ok3 ok4 : Bool),
      (cur ≠ 0 → cur ≠ s.last_hash →
        tick s cur ok1 ok2 =
          ({ last_hash := cur, activity_count := s.activity_count + 1 },
           [LedEvent.attempt 1 ok1, LedEvent.hold, LedEvent.attempt 0 ok2])) ∧
      tick s s.last_hash ok1 ok2 = (s, []) ∧
      (cur ≠ 0 → cur ≠ s.last_hash →
        tick (tick s cur ok1 ok2).1 cur ok3 ok4 = ((tick s cur ok1 ok2).1, [])) := by
  intro s cur ok1 ok2 ok3 ok4
  refine ⟨?_, ?_, ?_⟩
  · intro h0 hne
    simp [tick, blink_led, set_led_brightness, h0, hne]
  · simp [tick]
  · intro h0 hne
    simp [tick, h0, hne]

/-- Concrete instantiation of C3. -/
theorem C3_change_tick_witness :
    tick ⟨5381, 0⟩ 99 true false =
      ({ last_hash := 99, activity_count := 1 },
       [LedEvent.attempt 1 true, LedEvent.hold, LedEvent.attempt 0 false]) ∧
    tick ⟨5381, 0⟩ 5381 true true = (⟨5381, 0⟩, []) ∧
    tick (tick ⟨5381, 0⟩ 99 true false).1 99 true true =
      ((tick ⟨5381, 0⟩ 99 true false).1, []) :=
  ⟨(C3_change_tick ⟨5381, 0⟩ 99 true false true true).1 (by decide) (by decide),
   (C3_change_tick ⟨5381, 0⟩ 99 true true true true).2.1,
   (C3_change_tick ⟨5381, 0⟩ 99 true false true true).2.2 (by decide) (by decide)⟩

/-- C4: a tick whose fingerprint reads zero performs no LED write and
leaves baseline and counter unchanged; and after such an outage tick, a
recovery tick whose fingerprint equals the stored baseline also emits
nothing, so zero pulses occur across the outage and the recovery. -/
theorem C4_zero_tick :
    ∀ (s : LoopState) (ok1 ok2 ok3 ok4 : Bool),
      tick s 0 ok1 ok2 = (s, []) ∧
      tick (tick s 0 ok1 ok2).1 s.last_hash ok3 ok4 = (s, []) ∧
      (tick s 0 ok1 ok2).2 ++ (tick (tick s 0 ok1 ok2).1 s.last_hash ok3 ok4).2 = [] := by
  intro s ok1 ok2 ok3 ok4
  refine ⟨?_, ?_, ?_⟩ <;> simp [tick]

/-- C10: in every pulse the deactivating write (brightness 0) is attempted
after the hold, unconditionally on the outcome of the activating write: the
trace of `blink_led` always ends with the brightness-0 attempt, even when
the activating write failed. -/
theorem C10_deactivate_always_attempted :
    ∀ ok1 ok2 : Bool,
      (blink_led ok1 ok2).2 =
        [LedEvent.attempt 1 ok1, LedEvent.hold, LedEvent.attempt 0 ok2] ∧
      LedEvent.attempt 0 ok2 ∈ (blink_led ok1 ok2).2 ∧
      (blink_led false ok2).2.getLast? = some (LedEvent.attempt 0 ok2) := by
  intro ok1 ok2
  refine ⟨?_, ?_, ?_⟩ <;> simp [blink_led, set_led_brightness]

/-- Helper lemma: head-anchored matching holds exactly when the haystack
extends the key. -/
theorem startsWith_iff (key : List Nat) :
    ∀ l : List Nat, startsWith key l = true ↔ ∃ v, l = key ++ v := by
  induction key with
  | nil =>
      intro l
      simp [startsWith]
  | cons a ka ih =>
      intro l
      cases l with
      | nil => simp [startsWith]
      | cons b t =>
          simp only [startsWith, Bool.and_eq_true, beq_iff_eq, ih,
            List.cons_append, List.cons.injEq]
          constructor
          · rintro ⟨hab, v, hv⟩
            exact ⟨v, hab.symm, hv⟩
          · rintro ⟨v, hba, hv⟩
            exact ⟨hba.symm, v, hv⟩

/-- Helper lemma: `hasSubstr` holds exactly when the key occurs as a
contiguous substring of the haystack. -/
theorem hasSubstr_iff (key : List Nat) :
    ∀ l : List Nat, hasSubstr key l = true ↔ ∃ u v, l = u ++ key ++ v := by
  intro l
  induction l with
  | nil =>
      simp only [hasSubstr, startsWith_iff]
      constructor
      · rintro ⟨v, hv⟩
        exact ⟨[], v, hv⟩
      · rintro ⟨u, v, hv⟩
        rcases List.append_eq_nil.mp hv.symm with ⟨hu, hkv⟩
        rcases List.append_eq_nil.mp hu with ⟨hu2, hk⟩
        exact ⟨[], by simp [hk]⟩
  | cons b t ih =>
      simp only [hasSubstr, Bool.or_eq_true, startsWith_iff, ih]
      constructor
      · rintro (⟨v, hv⟩ | ⟨u, v, hv⟩)
        · exact ⟨[], v, by simp [hv]⟩
        · exact ⟨b :: u, v, by simp [hv]⟩
      · rintro ⟨u, v, hv⟩
        cases u with
        | nil =>
            left
            exact ⟨v, by simpa using hv⟩
        | cons x xs =>
            right
            simp only [List.cons_append, List.cons.injEq] at hv
            exact ⟨xs, v, hv.2⟩

/-- Helper lemma: the scan reports not-found exactly when no line contains
the key. -/
theorem scanLines_found_false_iff (key : List Nat) :
    ∀ lines : List (List Nat),
      (scanLines key lines).2 = false ↔ ∀ l ∈ lines, hasSubstr key l = false := by
  intro lines
  induction lines with
  | nil => simp [scanLines]
  | cons a t ih =>
      by_cases h : hasSubstr key a = true
      · simp [scanLines, h]
      · simp only [Bool.not_eq_true] at h
        simp [scanLines, h, ih]

/-- Helper lemma: a scan over lines none of which matches returns the
sentinel pair. -/
theorem scanLines_none (key : List Nat) :
    ∀ lines : List (List Nat),
      (∀ l ∈ lines, hasSubstr key l = false) → scanLines key lines = (0, false) := by
  intro lines
  induction lines with
  | nil => intro _; rfl
  | cons a t ih =>
      intro h
      have ha := h a (by simp)
      simp only [scanLines, ha, Bool.false_eq_true, if_false]
      exact ih fun l hl => h l (by simp [hl])

/-- Helper lemma: the scan stops at the first matching line and returns
its hash with the found flag set. -/
theorem scanLines_first (key l : List Nat) (hl : hasSubstr key l = true) :
    ∀ (pre post : List (List Nat)), (∀ p ∈ pre, hasSubstr key p = false) →
      scanLines key (pre ++ l :: post) = (hash_string l, true) := by
  intro pre
  induction pre with
  | nil =>
      intro post _
      simp [scanLines, hl]
  | cons a t ih =>
      intro post hpre
      have ha := hpre a (by simp)
      simp only [List.cons_append, scanLines, ha, Bool.false_eq_true, if_false]
      exact ih post fun p hp => hpre p (by simp [hp])

/-- C5: the record extractor fingerprints the first line, in top-to-bottom
order, that contains the key as a substring (a contiguous-run decomposition
exists exactly when `hasSubstr` accepts); it reports not-found only after
every line has been scanned without a match, in which case the returned
hash is the zero sentinel; each invocation is a pure function of the
snapshot it is handed, so the source is read in full on every call. -/
theorem C5_first_match :
    ∀ (lines : List (List Nat)) (key : List Nat),
      (∀ l, hasSubstr key l = true ↔ ∃ u v, l = u ++ key ++ v) ∧
      (∀ pre l post, lines = pre ++ l :: post →
        (∀ p ∈ pre, hasSubstr key p = false) → hasSubstr key l = true →
        scanLines key lines = (hash_string l, true)) ∧
      ((scanLines key lines).2 = false ↔ ∀ l ∈ lines, hasSubstr key l = false) ∧
      ((∀ l ∈ lines, hasSubstr key l = false) →
        get_diskstats_hash (some lines) key = 0) := by
  intro lines key
  refine ⟨fun l => hasSubstr_iff key l, ?_, scanLines_found_false_iff key lines, ?_⟩
  · intro pre l post hdec hpre hl
    rw [hdec]
    exact scanLines_first key l hl pre post hpre
  · intro h
    simp [get_diskstats_hash, scanLines_none key lines h]

/-- Concrete instantiation of C5: the key `[52]` first matches the middle
line, and a key absent from every line yields the sentinel. -/
theorem C5_first_match_witness :
    (∃ u v, [51, 52, 53] = u ++ [52] ++ v) ∧
    scanLines [52] [[49, 50], [51, 52, 53], [52, 57]] = (hash_string [51, 52, 53], true) ∧
    get_diskstats_hash (some [[49, 50], [51, 52, 53], [52, 57]]) [99] = 0 :=
  ⟨(C5_first_match [[49, 50], [51, 52, 53], [52, 57]] [52]).1 [51, 52, 53] |>.mp (by decide),
   (C5_first_match [[49, 50], [51, 52, 53], [52, 57]] [52]).2.1
     [[49, 50]] [51, 52, 53] [[52, 57]] rfl (by decide) (by decide),
   (C5_first_match [[49, 50], [51, 52, 53], [52, 57]] [99]).2.2.2 (by decide)⟩

/-- Helper lemma: a tick emits either no events or exactly the three-event
blink trace. -/
theorem tick_snd_cases (s : LoopState) (cur : Nat) (ok1 ok2 : Bool) :
    (tick s cur ok1 ok2).2 = [] ∨
    (tick s cur ok1 ok2).2 =
      [LedEvent.attempt 1 ok1, LedEvent.hold, LedEvent.attempt 0 ok2] := by
  by_cases h : (cur != s.last_hash && cur != 0) = true
  · right
    simp [tick, h, blink_led, set_led_brightness]
  · left
    simp [tick, h]

/-- Helper lemma: prepending one tick trace preserves pulse completeness. -/
theorem completeBlinks_tick_append (s : LoopState) (cur : Nat) (ok1 ok2 : Bool)
    (evs : List LedEvent) :
    completeBlinks ((tick s cur ok1 ok2).2 ++ evs) = completeBlinks evs := by
  rcases tick_snd_cases s cur ok1 ok2 with h | h <;> rw [h] <;> simp [completeBlinks]

/-- Helper lemma: one tick trace on its own is a sequence of complete
pulses. -/
theorem completeBlinks_tick (s : LoopState) (cur : Nat) (ok1 ok2 : Bool) :
    completeBlinks (tick s cur ok1 ok2).2 = true := by
  rcases tick_snd_cases s cur ok1 ok2 with h | h <;> rw [h] <;> simp [completeBlinks]

/-- Helper lemma: every trace the loop produces is a sequence of complete
pulses — a pulse begun in some tick always reaches its deactivating
write. -/
theorem runLoop_completeBlinks (inputs : List TickInput) :
    ∀ s : LoopState, completeBlinks (runLoop s inputs).2.1 = true := by
  induction inputs with
  | nil => intro s; rfl
  | cons i rest ih =>
      intro s
      by_cases h : i.sigDuring = true
      · simp only [runLoop, h, if_true]
        exact completeBlinks_tick s i.current_hash i.ok1 i.ok2
      · simp only [runLoop, h, Bool.false_eq_true, if_false]
        rw [completeBlinks_tick_append]
        exact ih (tick s i.current_hash i.ok1 i.ok2).1

/-- Helper lemma: when the first signal arrives during tick k, the loop
behaves exactly like a full run of ticks 0..k and then exits with status
zero; later inputs are never processed. -/
theorem runLoop_sig_eq (i : TickInput) (hi : i.sigDuring = true) :
    ∀ (pre post : List TickInput) (s : LoopState),
      (∀ j ∈ pre, j.sigDuring = false) →
      runLoop s (pre ++ i :: post) =
        ((fullTicks s (pre ++ [i])).1, (fullTicks s (pre ++ [i])).2, some 0) := by
  intro pre
  induction pre with
  | nil =>
      intro post s _
      simp [runLoop, fullTicks, hi]
  | cons j t ih =>
      intro post s hpre
      have hj : j.sigDuring = false := hpre j (by simp)
      simp only [List.cons_append, runLoop, fullTicks, hj, Bool.false_eq_true, if_false,
        List.append_eq]
      rw [ih post (tick s j.current_hash j.ok1 j.ok2).1
        (fun p hp => hpre p (by simp [hp]))]

/-- C6 as stated is false at a concrete input: `blink_led` is void, so the
value it returns to its caller when both endpoint opens fail is identical
to the value returned on full success — no I/O error reaches the pulse's
caller (only `set_led_brightness` reports `-1`, one level below), and the
loop state cannot observe the failure either. -/
theorem C6_counterexample :
    (blink_led false false).1 = (blink_led true true).1 ∧
    (set_led_brightness false 1).1 = -1 ∧
    (tick ⟨1, 0⟩ 2 false false).1 = (tick ⟨1, 0⟩ 2 true true).1 := by
  refine ⟨rfl, rfl, by decide⟩

/-- C6 amended: a failed actuator write is reported as `-1` by
`set_led_brightness` to the pulse routine, which discards it and returns
nothing to the loop; the loop is unaffected: on a detected change whose
pulse writes both fail, the change is still counted, the baseline still
updates, and the loop recurses into the next tick normally. -/
theorem C6_write_failure_nonfatal :
    ∀ (s : LoopState) (cur b : Nat) (rest : List TickInput),
      (set_led_brightness false b).1 = -1 ∧
      (cur ≠ 0 → cur ≠ s.last_hash →
        (tick s cur false false).1 =
          { last_hash := cur, activity_count := s.activity_count + 1 }) ∧
      runLoop s (⟨cur, false, false, false⟩ :: rest) =
        ((runLoop (tick s cur false false).1 rest).1,
         (tick s cur false false).2 ++ (runLoop (tick s cur false false).1 rest).2.1,
         (runLoop (tick s cur false false).1 rest).2.2) := by
  intro s cur b rest
  refine ⟨rfl, ?_, ?_⟩
  · intro h0 hne
    simp [tick, h0, hne]
  · simp [runLoop]

/-- Concrete instantiation of C6 amended. -/
theorem C6_write_failure_nonfatal_witness :
    (set_led_brightness false 1).1 = -1 ∧
    (tick ⟨1, 0⟩ 2 false false).1 = { last_hash := 2, activity_count := 1 } :=
  ⟨(C6_write_failure_nonfatal ⟨1, 0⟩ 2 1 []).1,
   (C6_write_failure_nonfatal ⟨1, 0⟩ 2 1 []).2.1 (by decide) (by decide)⟩

/-- C7: a termination request delivered during tick k is acted on only at
the next tick boundary: the loop runs exactly ticks 0..k in full, every
pulse in the emitted trace is complete (activating write, hold,
deactivating write), and the process exits with status zero. -/
theorem C7_termination_at_tick_boundary :
    ∀ (s : LoopState) (pre : List TickInput) (i : TickInput) (post : List TickInput),
      (∀ j ∈ pre, j.sigDuring = false) → i.sigDuring = true →
      runLoop s (pre ++ i :: post) =
        ((fullTicks s (pre ++ [i])).1, (fullTicks s (pre ++ [i])).2, some 0) ∧
      completeBlinks (runLoop s (pre ++ i :: post)).2.1 = true := by
  intro s pre i post hpre hi
  exact ⟨runLoop_sig_eq i hi pre post s hpre,
    runLoop_completeBlinks (pre ++ i :: post) s⟩

/-- Concrete instantiation of C7: the signal arrives during the second
tick; its pulse completes, the third tick is never run, exit status is
zero. -/
theorem C7_termination_at_tick_boundary_witness :
    runLoop ⟨0, 0⟩
        [⟨7, true, true, false⟩, ⟨8, true, true, true⟩, ⟨9, true, true, false⟩] =
      ((fullTicks ⟨0, 0⟩ [⟨7, true, true, false⟩, ⟨8, true, true, true⟩]).1,
       (fullTicks ⟨0, 0⟩ [⟨7, true, true, false⟩, ⟨8, true, true, true⟩]).2,
       some 0) ∧
    completeBlinks
        (runLoop ⟨0, 0⟩
          [⟨7, true, true, false⟩, ⟨8, true, true, true⟩,
           ⟨9, true, true, false⟩]).2.1 = true :=
  C7_termination_at_tick_boundary ⟨0, 0⟩ [⟨7, true, true, false⟩]
    ⟨8, true, true, true⟩ [⟨9, true, true, false⟩] (by decide) (by decide)

/-- C8 as stated is false at a concrete input: with a zero stored baseline
and the non-zero current fingerprint 5, the change decision of line 216 is
true, not false. -/
theorem C8_counterexample : has_changed 0 5 = true := by decide

/-- C8 amended: it is a zero current reading, not a zero stored baseline,
that never registers a change: `has_changed(x, 0)` is false for every x,
while a zero baseline does not suppress detection — `has_changed(0, y)` is
true for every non-zero y. -/
theorem C8_zero_current_never_triggers :
    ∀ x : Nat, has_changed x 0 = false ∧ ∀ y : Nat, y ≠ 0 → has_changed 0 y = true := by
  intro x
  constructor
  · simp [has_changed]
  · intro y hy
    simp [has_changed, hy]

/-- Concrete instantiation of C8 amended. -/
theorem C8_zero_current_never_triggers_witness :
    has_changed 3 0 = false ∧ has_changed 0 7 = true :=
  ⟨(C8_zero_current_never_triggers 3).1,
   (C8_zero_current_never_triggers 3).2 7 (by decide)⟩

/-- C9 evaluated at the failing configuration: the signal handler does set
the running flag to false, but with verbose mode enabled it also prints
inside the signal-handling context, contradicting the claim that no
printing happens there in every configuration; only the non-verbose
configuration is print-free. -/
theorem C9_handler_prints_when_verbose :
    (signal_handler true 2).1 = false ∧
    (signal_handler true 2).2 ≠ [] ∧
    (signal_handler false 2).2 = [] := by
  refine ⟨rfl, ?_, rfl⟩
  simp [signal_handler]

end DiskLedMonitor
